import Mathlib

/-!
Shallow embedding of the Lynchian Weather Dreams client pipeline.

The embedding covers the generation orchestrator of `src/App.tsx`
(`handleSelectLocation`, `processLocation`, the auto-drift loop and the
log buffer), the terrain classifier and solar-longitude math of
`src/services/weatherService.ts` and `src/components/WorldMap.tsx`, the
coordinate mapper of `src/components/WorldMap.tsx`, and the visualizer
frame guard of `src/components/LynchPlayer.tsx`.

TypeScript `number` values are modelled as rationals (`ℚ`), promises that
settle as `Except Unit` results supplied by an oracle record, and the
React state hooks as an explicit orchestrator state record threaded
through the functions.
-/

namespace LynchianWeather

/-- Model of `Coordinates` from `src/types.ts`: a latitude and a longitude. -/
structure Coordinates where
  lat : ℚ
  lng : ℚ
deriving DecidableEq, Repr

/-- Model of `WeatherData` from `src/types.ts` (the fields produced by
`fetchWeatherData`): temperature (°C), wind speed (km/h), condition code. -/
structure WeatherData where
  temperature : ℚ
  windSpeed : ℚ
  conditionCode : ℤ
deriving DecidableEq, Repr

/-- A decoded `AudioBuffer` (the result of `decodeAudioData`), modelled as
its PCM sample list; its internals are irrelevant to the orchestrator. -/
abbrev AudioBuffer := List ℤ

/-- The slice of `ThemeConfig` (`src/types.ts`) the orchestrator state
depends on: only `id` is stored into the content bundle; the prompt,
voice and visual fields are consumed by the external gateways. -/
structure ThemeConfig where
  id : String
deriving DecidableEq, Repr

/-- Model of `LynchContent` from `src/types.ts`: the assembled content bundle.
TypeScript `T | null` fields become `Option`. -/
structure LynchContent where
  narrativeText : String
  audioBuffer : Option AudioBuffer
  videoUrl : Option String
  imageUrl : Option String
  location : Coordinates
  themeId : String
deriving DecidableEq, Repr

/-- Model of `AppState` from `src/types.ts`: the pipeline state enum. -/
inductive AppState
  | IDLE
  | FETCHING_WEATHER
  | GENERATING_NARRATIVE
  | GENERATING_MEDIA
  | PLAYING
  | ERROR
deriving DecidableEq, Repr

/-- The log lines appended by `processLocation` in `src/App.tsx`, one
constructor per template string, carrying the interpolated data (string
formatting such as `toFixed(2)` is abstracted, the data is kept). -/
inductive LogMsg
  | connecting (lat lng : ℚ)
  | conditionsReceived (temp : ℚ)
  | narrativeSynthesized
  | generatingMedia
  | ready
  | errorMsg (userMsg : String)
deriving DecidableEq, Repr

/-- Model of `addLog` from `src/App.tsx`:
`setLogs(prev => [msg, ...prev].slice(0, 5))`. Polymorphic in the entry
type (the source stores strings; the orchestrator model stores `LogMsg`). -/
def addLog {α : Type} (msg : α) (prev : List α) : List α :=
  (msg :: prev).take 5

/-- Folding a sequence of `addLog` appends over an initial buffer,
oldest message first (each element plays one `addLog` call). -/
def applyLogs {α : Type} (msgs : List α) (logs : List α) : List α :=
  msgs.foldl (fun acc m => addLog m acc) logs

/-- The mutable state owned by the `App` component that the orchestrator
reads or writes: `appState`, `currentLocation`, `content` and `logs`. -/
structure OrchestratorState where
  appState : AppState
  currentLocation : Option Coordinates
  content : Option LynchContent
  logs : List LogMsg
deriving DecidableEq, Repr

/-- The error categories thrown inside `processLocation`
(`throw new Error("WEATHER_FAILED")` etc.); `other` models any
uncategorized error reaching the catch block. -/
inductive RunError
  | WEATHER_FAILED
  | NARRATIVE_FAILED
  | AUDIO_FAILED
  | other (msg : String)
deriving DecidableEq, Repr

/-- The user-facing message selection of the catch block in
`processLocation` (`src/App.tsx`): the chain of
the chained equality tests on the error message; the `Unknown` fallback
models the falsy (empty-string) case of the generic branch. -/
def userMessage : RunError → String
  | .WEATHER_FAILED => "Error: Unable to establish telemetry link (Weather Service Down)."
  | .NARRATIVE_FAILED => "Error: Neural synthesis failure (LLM Unresponsive)."
  | .AUDIO_FAILED => "Error: Audio frequency corruption (TTS Failed)."
  | .other m => "Error: System failure (" ++ (if m = "" then "Unknown" else m) ++ ")."

/-- The catch block of `processLocation`: `setAppState(AppState.ERROR)`
followed by `addLog(userMsg)`. It touches no other state field. -/
def handleRunError (e : RunError) (st : OrchestratorState) : OrchestratorState :=
  { st with appState := .ERROR, logs := addLog (.errorMsg (userMessage e)) st.logs }

/-- Oracle record for the four awaited gateway calls of one pipeline run.
Each field is how the corresponding promise settles: `.ok` for fulfilled,
`.error` for rejected. `imageSettled` is the settled result of the
`generateSceneryImage(...)` promise as seen by `Promise.allSettled`. -/
structure GatewayResults where
  weatherResult : Except Unit WeatherData
  narrativeResult : Except Unit String
  speechResult : Except Unit AudioBuffer
  imageSettled : Except Unit (Option String)

/-- The try/catch wrapper inside `generateSceneryImage`
(`src/services/geminiService.ts`): a model-call failure is caught and
converted to `null`; a fulfilled model call passes its
data-URI-or-`null` through. -/
def generateSceneryImage (modelCall : Except Unit (Option String)) :
    Except Unit (Option String) :=
  match modelCall with
  | .ok v => .ok v
  | .error _ => .ok none

/-- Model of `processLocation` from `src/App.tsx`, with the awaited gateway calls
replaced by the oracle `g`. Mirrors the source control flow: set
`FETCHING_WEATHER` and log; on weather rejection throw `WEATHER_FAILED`;
log conditions; set `GENERATING_NARRATIVE`; on narrative rejection throw
`NARRATIVE_FAILED`; log; set `GENERATING_MEDIA` and log; `allSettled` the
speech and image promises; on speech rejection throw `AUDIO_FAILED`;
otherwise `finalImageUrl` is the fulfilled image value or `null`,
`setContent` with the assembled bundle, `setAppState(PLAYING)` and log.
Thrown errors land in `handleRunError` (the catch block). -/
def processLocation (g : GatewayResults) (currentTheme : ThemeConfig)
    (coords : Coordinates) (st : OrchestratorState) : OrchestratorState :=
  let st1 : OrchestratorState :=
    { st with appState := .FETCHING_WEATHER,
              logs := addLog (.connecting coords.lat coords.lng) st.logs }
  match g.weatherResult with
  | .error _ => handleRunError .WEATHER_FAILED st1
  | .ok weather =>
    let st2 : OrchestratorState :=
      { st1 with logs := addLog (.conditionsReceived weather.temperature) st1.logs }
    let st3 : OrchestratorState := { st2 with appState := .GENERATING_NARRATIVE }
    match g.narrativeResult with
    | .error _ => handleRunError .NARRATIVE_FAILED st3
    | .ok narrative =>
      let st4 : OrchestratorState :=
        { st3 with logs := addLog .narrativeSynthesized st3.logs }
      let st5 : OrchestratorState :=
        { st4 with appState := .GENERATING_MEDIA,
                   logs := addLog .generatingMedia st4.logs }
      match g.speechResult with
      | .error _ => handleRunError .AUDIO_FAILED st5
      | .ok audioBuf =>
        let finalImageUrl : Option String :=
          match g.imageSettled with
          | .ok v => v
          | .error _ => none
        let bundle : LynchContent :=
          { narrativeText := narrative,
            audioBuffer := some audioBuf,
            videoUrl := none,
            imageUrl := finalImageUrl,
            location := coords,
            themeId := currentTheme.id }
        let st6 : OrchestratorState := { st5 with content := some bundle }
        { st6 with appState := .PLAYING, logs := addLog .ready st6.logs }

/-- Model of `handleSelectLocation` from `src/App.tsx`: the busy guard
(`appState !== IDLE && appState !== PLAYING && appState !== ERROR`
returns early), then `setCurrentLocation(coords)` and
`processLocation(coords)`. -/
def handleSelectLocation (g : GatewayResults) (currentTheme : ThemeConfig)
    (coords : Coordinates) (st : OrchestratorState) : OrchestratorState :=
  if st.appState ≠ .IDLE ∧ st.appState ≠ .PLAYING ∧ st.appState ≠ .ERROR then
    st
  else
    processLocation g currentTheme coords { st with currentLocation := some coords }

/-- Model of `runAutoLoop` from the auto-mode effect in `src/App.tsx`: draws a
random coordinate (`lat ∈ [-80, 80]`, `lng ∈ [-180, 180]`, here passed in
as the drawn values) and calls `processLocation` on it directly — it does
not go through `handleSelectLocation`. -/
def runAutoLoop (g : GatewayResults) (currentTheme : ThemeConfig)
    (lat lng : ℚ) (st : OrchestratorState) : OrchestratorState :=
  processLocation g currentTheme { lat := lat, lng := lng } st

/-- Model of `getTerrainDescription` from `src/services/weatherService.ts`:
`if (Math.abs(lat) > 60) return "frozen tundra";` etc., a chain of early
returns evaluated top to bottom. -/
def getTerrainDescription (lat lng : ℚ) : String :=
  if |lat| > 60 then "frozen tundra"
  else if |lat| < 20 ∧ |lng| < 30 then "dense jungle"
  else if |lat| > 20 ∧ |lat| < 40 ∧ |lng| > 100 then "lonely desert highway"
  else "an industrial wasteland"

/-- The terrain classifier transcribed from the specification text (§4.2):
first match wins among `60 < |lat|` → tundra, `|lat| < 20 ∧ |lng| < 30` →
jungle, `20 < |lat| ∧ |lat| < 40 ∧ 100 < |lng|` → desert highway,
otherwise the generic wasteland label. Stated separately so the source
classifier can be proved to refine it. -/
def specTerrainLabel (lat lng : ℚ) : String :=
  if 60 < |lat| then "frozen tundra"
  else if |lat| < 20 ∧ |lng| < 30 then "dense jungle"
  else if 20 < |lat| ∧ |lat| < 40 ∧ 100 < |lng| then "lonely desert highway"
  else "an industrial wasteland"

/-- Model of `getPos` from `src/components/WorldMap.tsx`, the numeric part of the
CSS percentages:
`left = ((lng + 180) / 360) * 100`, `top = ((90 - lat) / 180) * 100`. -/
def geoToScreenPercent (lat lng : ℚ) : ℚ × ℚ :=
  (((lng + 180) / 360) * 100, ((90 - lat) / 180) * 100)

/-- The coordinate recovery of `handleClick` in
`src/components/WorldMap.tsx`: `normX = x / width`, `normY = y / height`,
`lng = normX * 360 - 180`, `lat = 90 - normY * 180`. -/
def screenToGeo (x y width height : ℚ) : Coordinates :=
  { lat := 90 - (y / height) * 180, lng := (x / width) * 360 - 180 }

/-- The raw subsolar longitude of `calculateSunPosition` in
`src/components/WorldMap.tsx`: `let sunLng = (12 - utcHours) * 15`. -/
def sunLngRaw (utcHours : ℚ) : ℚ := (12 - utcHours) * 15

/-- The wrap of `calculateSunPosition`:
`if (sunLng < -180) sunLng += 360; if (sunLng > 180) sunLng -= 360;`,
the two conditionals applied in sequence. -/
def normalizeSunLng (raw : ℚ) : ℚ :=
  let wrapped := if raw < -180 then raw + 360 else raw
  if wrapped > 180 then wrapped - 360 else wrapped

/-- The subsolar longitude produced by `calculateSunPosition` as a
function of `utcHours = getUTCHours() + getUTCMinutes() / 60`. -/
def subsolarLng (utcHours : ℚ) : ℚ := normalizeSunLng (sunLngRaw utcHours)

/-- One scheduled frame of the `visualize` loop in
`src/components/LynchPlayer.tsx`: `loopSource` is the
`AudioBufferSourceNode` the loop was started for (playback instances
numbered by `Nat`), `currentSource` is `sourceNodeRef.current` at the
moment the frame fires (`none` = `null`). -/
structure VisualizeFrame where
  loopSource : Nat
  currentSource : Option Nat
deriving DecidableEq, Repr

/-- The guard of `draw` in `visualize`
(`if (!sourceNodeRef.current) return;`): the frame renders and
reschedules itself (`requestAnimationFrame(draw)`) exactly when
`sourceNodeRef.current` is non-null. The captured `source` the loop was
started for is not consulted. -/
def frameProceeds (f : VisualizeFrame) : Bool :=
  f.currentSource.isSome

/-- The effect of `stopPlayback` (`src/components/LynchPlayer.tsx`) on
`sourceNodeRef.current`: it is set to `null`. -/
def stopPlayback (_cur : Option Nat) : Option Nat :=
  none

/-- The effect of `startPlayback` on `sourceNodeRef.current`: after
`sourceNodeRef.current = source`, the ref holds the new source node. -/
def startPlayback (newSource : Nat) (_cur : Option Nat) : Option Nat :=
  some newSource

/-- A concrete fulfilled weather snapshot for the concrete runs below. -/
def okWeather : WeatherData :=
  { temperature := 7, windSpeed := 3, conditionCode := 0 }

/-- A concrete pristine orchestrator state. -/
def idleState : OrchestratorState :=
  { appState := .IDLE, currentLocation := none, content := none, logs := [] }

/-- A concrete gateway oracle where every call is fulfilled. -/
def sampleGateways : GatewayResults :=
  { weatherResult := .ok okWeather,
    narrativeResult := .ok "static",
    speechResult := .ok [0],
    imageSettled := .ok none }

/-- A concrete gateway oracle where speech rejects while the image is
fulfilled with a data URI. -/
def speechFailGateways : GatewayResults :=
  { weatherResult := .ok okWeather,
    narrativeResult := .ok "static",
    speechResult := .error (),
    imageSettled := .ok (some "data:image/png;base64,AAA") }

/-- A concrete gateway oracle where the image model call failed and was
caught inside `generateSceneryImage`, while speech is fulfilled. -/
def imageFailGateways : GatewayResults :=
  { weatherResult := .ok okWeather,
    narrativeResult := .ok "static",
    speechResult := .ok [0, 1],
    imageSettled := generateSceneryImage (.error ()) }

/-- A concrete gateway oracle whose narrative call rejects. -/
def narrativeFailGateways : GatewayResults :=
  { weatherResult := .ok okWeather,
    narrativeResult := .error (),
    speechResult := .ok [0],
    imageSettled := .ok none }

/-- A state captured mid-run, during the narrative step. -/
def narrativeBusyState : OrchestratorState :=
  { appState := .GENERATING_NARRATIVE, currentLocation := none,
    content := none, logs := [] }

/-- A state captured mid-run, during the media step. -/
def mediaBusyState : OrchestratorState :=
  { appState := .GENERATING_MEDIA, currentLocation := none,
    content := none, logs := [] }

/-- A content bundle left over from an earlier successful run. -/
def oldBundle : LynchContent :=
  { narrativeText := "old", audioBuffer := some [5],
    videoUrl := none, imageUrl := none,
    location := { lat := 1, lng := 2 }, themeId := "LYNCH" }

/-- A state observed while the earlier bundle is playing. -/
def playingState : OrchestratorState :=
  { appState := .PLAYING, currentLocation := some { lat := 1, lng := 2 },
    content := some oldBundle, logs := [] }

/-- An `addLog` append never leaves more than five entries. -/
theorem addLog_length_le {α : Type} (msg : α) (prev : List α) :
    (addLog msg prev).length ≤ 5 := by
  simp [addLog]

/-- The head of the buffer right after an append is the appended entry. -/
theorem addLog_head (msg : α) (prev : List α) :
    (addLog msg prev).head? = some msg :=
  rfl

/-- Folded appends over a buffer of at most five entries compute the
five most recent entries, most recent first. -/
theorem applyLogs_eq_take {α : Type} (msgs : List α) :
    ∀ logs : List α, logs.length ≤ 5 →
      applyLogs msgs logs = (msgs.reverse ++ logs).take 5 := by
  induction msgs with
  | nil =>
      intro logs h
      simpa [applyLogs] using (List.take_of_length_le h).symm
  | cons m ms ih =>
      intro logs _h
      have step : applyLogs (m :: ms) logs = applyLogs ms (addLog m logs) := rfl
      have key : ∀ n : Nat, n ≤ 5 →
          List.take n (m :: List.take 4 logs) = List.take n (m :: logs) := by
        intro n hn
        cases n with
        | zero => rfl
        | succ k =>
            have hk : min k 4 = k := min_eq_left (by omega)
            simp [List.take_succ_cons, List.take_take, hk]
      rw [step, ih (addLog m logs) (addLog_length_le m logs)]
      simp [addLog, List.take_append_eq_append_take, List.take_take]
      exact key _ (by omega)

/-- Claim C5: the terrain classifier is a pure total function evaluated
in fixed priority order with first match winning — it coincides with the
priority-ordered classifier transcribed from the specification,
everywhere — and on the sample points: (70, 0) → tundra, (10, 10) → jungle,
(30, 120) → desert highway, (70, 120) → tundra (priority over the
desert rule), (0, 150) → the generic wasteland label. -/
theorem getTerrainDescription_spec :
    (∀ lat lng : ℚ, getTerrainDescription lat lng = specTerrainLabel lat lng)
    ∧ getTerrainDescription 70 0 = "frozen tundra"
    ∧ getTerrainDescription 10 10 = "dense jungle"
    ∧ getTerrainDescription 30 120 = "lonely desert highway"
    ∧ getTerrainDescription 70 120 = "frozen tundra"
    ∧ getTerrainDescription 0 150 = "an industrial wasteland" := by
  refine ⟨fun lat lng => rfl, ?_, ?_, ?_, ?_, ?_⟩ <;> decide

/-- Claim C6: converting a coordinate to screen percentages, scaling the
percentages onto a viewport of positive width and height, and applying
the click-handler recovery returns the original coordinate exactly over
exact (rational) arithmetic. -/
theorem mapper_round_trip (lat lng width height : ℚ)
    (_hlat1 : -90 ≤ lat) (_hlat2 : lat ≤ 90)
    (_hlng1 : -180 ≤ lng) (_hlng2 : lng ≤ 180)
    (hw : 0 < width) (hh : 0 < height) :
    screenToGeo ((geoToScreenPercent lat lng).1 / 100 * width)
      ((geoToScreenPercent lat lng).2 / 100 * height) width height =
      { lat := lat, lng := lng } := by
  have hw0 : width ≠ 0 := ne_of_gt hw
  have hh0 : height ≠ 0 := ne_of_gt hh
  simp only [screenToGeo, geoToScreenPercent, Coordinates.mk.injEq]
  constructor <;> field_simp <;> ring

/-- Witness for C6 at lat 45, lng −60 on an 800 × 400 viewport. -/
theorem mapper_round_trip_witness :
    screenToGeo ((geoToScreenPercent 45 (-60)).1 / 100 * 800)
      ((geoToScreenPercent 45 (-60)).2 / 100 * 400) 800 400 =
      { lat := 45, lng := -60 } :=
  mapper_round_trip 45 (-60) 800 400 (by decide) (by decide) (by decide)
    (by decide) (by decide) (by decide)

/-- Claim C7: for `utcHours ∈ [0, 24)` the raw subsolar longitude is
already inside [−180, 180], so the single wrap leaves it unchanged and
the result lies in [−180, 180]; at 12:00 UTC it is 0 and at 00:00 UTC it
is 180 (the positive representative, no wrap fires). -/
theorem subsolarLng_spec :
    (∀ u : ℚ, 0 ≤ u → u < 24 →
      subsolarLng u = sunLngRaw u
      ∧ -180 ≤ subsolarLng u ∧ subsolarLng u ≤ 180)
    ∧ subsolarLng 12 = 0 ∧ subsolarLng 0 = 180 := by
  refine ⟨?_, by norm_num [subsolarLng, normalizeSunLng, sunLngRaw],
    by norm_num [subsolarLng, normalizeSunLng, sunLngRaw]⟩
  intro u h0 h24
  have e : sunLngRaw u = 180 - 15 * u := by unfold sunLngRaw; ring
  have h1 : ¬ sunLngRaw u < -180 := by rw [e]; intro h; linarith
  have h2 : ¬ sunLngRaw u > 180 := by rw [e]; intro h; linarith
  have hid : subsolarLng u = sunLngRaw u := by
    simp only [subsolarLng, normalizeSunLng]
    rw [if_neg h1, if_neg h2]
  refine ⟨hid, ?_, ?_⟩ <;> rw [hid, e] <;> linarith

/-- Witness for C7 at `utcHours = 6`. -/
theorem subsolarLng_spec_witness :
    subsolarLng 6 = sunLngRaw 6
    ∧ -180 ≤ subsolarLng 6 ∧ subsolarLng 6 ≤ 180 :=
  subsolarLng_spec.1 6 (by decide) (by decide)

/-- Claim C8: the log buffer holds at most the five most recent entries
in most-recent-first order; after seven appends to an empty buffer
exactly entries 7, 6, 5, 4, 3 remain, in that order. -/
theorem log_buffer_cap :
    (∀ msgs : List String,
        applyLogs msgs ([] : List String) = msgs.reverse.take 5
        ∧ (applyLogs msgs ([] : List String)).length ≤ 5)
    ∧ ∀ e1 e2 e3 e4 e5 e6 e7 : String,
        applyLogs [e1, e2, e3, e4, e5, e6, e7] ([] : List String)
          = [e7, e6, e5, e4, e3] := by
  constructor
  · intro msgs
    have h := applyLogs_eq_take msgs [] (by simp)
    refine ⟨by simpa using h, ?_⟩
    rw [h]
    simp [List.length_take]
  · intro e1 e2 e3 e4 e5 e6 e7
    rfl

/-- Claim C1: if the run reaches the media step (weather and narrative
fulfilled) and the speech promise settles rejected, the run ends in
`ERROR` with the `AUDIO_FAILED` user message logged, and the content
bundle is not assembled — any fulfilled image result is discarded
(`g.imageSettled` is arbitrary). -/
theorem speech_failure_fatal (g : GatewayResults) (theme : ThemeConfig)
    (coords : Coordinates) (st : OrchestratorState) (w : WeatherData) (n : String)
    (hw : g.weatherResult = .ok w) (hn : g.narrativeResult = .ok n)
    (hs : g.speechResult = .error ()) :
    (processLocation g theme coords st).appState = .ERROR
    ∧ (processLocation g theme coords st).content = st.content
    ∧ (processLocation g theme coords st).logs.head? =
        some (.errorMsg (userMessage .AUDIO_FAILED)) := by
  refine ⟨?_, ?_, ?_⟩ <;>
    simp [processLocation, hw, hn, hs, handleRunError, addLog_head]

/-- Witness for C1: a concrete run with rejected speech and a fulfilled
image ends in `ERROR` with unchanged (empty) content. -/
theorem speech_failure_fatal_witness :
    (processLocation speechFailGateways { id := "LYNCH" } { lat := 0, lng := 0 }
        idleState).appState = .ERROR
    ∧ (processLocation speechFailGateways { id := "LYNCH" } { lat := 0, lng := 0 }
        idleState).content = idleState.content
    ∧ (processLocation speechFailGateways { id := "LYNCH" } { lat := 0, lng := 0 }
        idleState).logs.head? = some (.errorMsg (userMessage .AUDIO_FAILED)) :=
  speech_failure_fatal speechFailGateways _ _ _ okWeather "static" rfl rfl rfl

/-- Claim C2: if the run reaches the media step, speech is fulfilled and
image generation fails (either the settled image promise is rejected, or
the model call inside `generateSceneryImage` failed and was caught as
`null`), the run transitions to `PLAYING` and assembles the bundle with
a `null` image. -/
theorem image_failure_nonfatal (g : GatewayResults) (theme : ThemeConfig)
    (coords : Coordinates) (st : OrchestratorState)
    (w : WeatherData) (n : String) (buf : AudioBuffer)
    (hw : g.weatherResult = .ok w) (hn : g.narrativeResult = .ok n)
    (hs : g.speechResult = .ok buf)
    (himg : g.imageSettled = .error ()
        ∨ g.imageSettled = generateSceneryImage (.error ())) :
    (processLocation g theme coords st).appState = .PLAYING
    ∧ (processLocation g theme coords st).content = some
        { narrativeText := n, audioBuffer := some buf, videoUrl := none,
          imageUrl := none, location := coords, themeId := theme.id } := by
  rcases himg with h | h <;>
    refine ⟨?_, ?_⟩ <;>
      simp [processLocation, hw, hn, hs, h, generateSceneryImage]

/-- Witness for C2: a concrete run with a caught image failure plays
with a `null` image. -/
theorem image_failure_nonfatal_witness :
    (processLocation imageFailGateways { id := "LYNCH" } { lat := 1, lng := 2 }
        idleState).appState = .PLAYING
    ∧ (processLocation imageFailGateways { id := "LYNCH" } { lat := 1, lng := 2 }
        idleState).content = some
        { narrativeText := "static", audioBuffer := some [0, 1], videoUrl := none,
          imageUrl := none, location := { lat := 1, lng := 2 }, themeId := "LYNCH" } :=
  image_failure_nonfatal imageFailGateways _ _ _ okWeather "static" [0, 1]
    rfl rfl rfl (Or.inr rfl)

/-- Claim C3: a coordinate submitted through `handleSelectLocation`
while the pipeline state is `FETCHING_WEATHER`, `GENERATING_NARRATIVE`
or `GENERATING_MEDIA` is a no-op: the whole orchestrator state (pipeline
state, current selection, content bundle and log buffer) is returned
unchanged and no run begins. -/
theorem busy_submit_noop (g : GatewayResults) (theme : ThemeConfig)
    (coords : Coordinates) (st : OrchestratorState)
    (h : st.appState = .FETCHING_WEATHER ∨ st.appState = .GENERATING_NARRATIVE
        ∨ st.appState = .GENERATING_MEDIA) :
    handleSelectLocation g theme coords st = st := by
  rcases h with h | h | h <;> simp [handleSelectLocation, h]

/-- Witness for C3: a concrete submission during `GENERATING_NARRATIVE`
leaves the state untouched. -/
theorem busy_submit_noop_witness :
    handleSelectLocation sampleGateways { id := "LYNCH" } { lat := 5, lng := 6 }
        narrativeBusyState = narrativeBusyState :=
  busy_submit_noop sampleGateways _ _ _ (Or.inr (Or.inl rfl))

/-- Counterexample to claim C4: an auto-drift tick arriving while the
pipeline state is `GENERATING_MEDIA` is not rejected — `runAutoLoop`
calls `processLocation` directly, which mutates the state, so the tick
does not leave the state unchanged. -/
theorem auto_drift_not_rejected :
    mediaBusyState.appState = .GENERATING_MEDIA
    ∧ runAutoLoop sampleGateways { id := "LYNCH" } 0 0 mediaBusyState ≠ mediaBusyState := by
  refine ⟨rfl, ?_⟩
  intro hEq
  have h := congrArg OrchestratorState.appState hEq
  simp [runAutoLoop, processLocation, sampleGateways, mediaBusyState,
    handleRunError, addLog] at h

/-- Claim C4 (amended): a run triggered by the auto-drift scheduler
invokes `processLocation` directly and is never subject to the
busy-rejection of the orchestrator — whatever the current state, including
the in-flight states, the run proceeds and ends in `PLAYING` or
`ERROR`; nothing prevents two runs from being in flight at once. -/
theorem auto_drift_bypasses_guard (g : GatewayResults) (theme : ThemeConfig)
    (lat lng : ℚ) (st : OrchestratorState) :
    runAutoLoop g theme lat lng st
      = processLocation g theme { lat := lat, lng := lng } st
    ∧ ((runAutoLoop g theme lat lng st).appState = .PLAYING
        ∨ (runAutoLoop g theme lat lng st).appState = .ERROR) := by
  refine ⟨rfl, ?_⟩
  cases hw : g.weatherResult with
  | error e => right; simp [runAutoLoop, processLocation, hw, handleRunError]
  | ok w =>
      cases hn : g.narrativeResult with
      | error e => right; simp [runAutoLoop, processLocation, hw, hn, handleRunError]
      | ok n =>
          cases hs : g.speechResult with
          | error e =>
              right; simp [runAutoLoop, processLocation, hw, hn, hs, handleRunError]
          | ok b => left; simp [runAutoLoop, processLocation, hw, hn, hs]

/-- Counterexample to claim C9: after playback instance 0 has been
replaced (its source stopped, a new source 1 started), the frame of the
loop started for instance 0 still proceeds — it renders and reschedules
— because the guard only checks that some source is live. -/
theorem stale_loop_still_renders :
    startPlayback 1 (stopPlayback (some 0)) ≠ some 0
    ∧ frameProceeds
        { loopSource := 0,
          currentSource := startPlayback 1 (stopPlayback (some 0)) } = true := by
  decide

/-- Claim C9 (amended): a visualization-loop frame stops (returns
without rendering or rescheduling) exactly when no playback source is
current at all; if a new playback instance has replaced the one the
loop was started for, the old loop keeps rendering and rescheduling. -/
theorem frame_guard_checks_liveness_only :
    (∀ old new : Nat,
        frameProceeds { loopSource := old, currentSource := some new } = true)
    ∧ (∀ old : Nat,
        frameProceeds { loopSource := old, currentSource := none } = false) :=
  ⟨fun _ _ => rfl, fun _ => rfl⟩

/-- Claim C10: when a run fails at the weather, narrative or speech
step, the failure handler changes only the pipeline state (to `ERROR`)
and the log buffer; the content bundle of the previous successful run
and the current selection are left untouched. -/
theorem failure_frame_condition (g : GatewayResults) (theme : ThemeConfig)
    (coords : Coordinates) (st : OrchestratorState)
    (h : g.weatherResult = .error () ∨ g.narrativeResult = .error ()
        ∨ g.speechResult = .error ()) :
    (processLocation g theme coords st).appState = .ERROR
    ∧ (processLocation g theme coords st).content = st.content
    ∧ (processLocation g theme coords st).currentLocation = st.currentLocation := by
  cases hw : g.weatherResult with
  | error e => refine ⟨?_, ?_, ?_⟩ <;> simp [processLocation, hw, handleRunError]
  | ok w =>
      cases hn : g.narrativeResult with
      | error e =>
          refine ⟨?_, ?_, ?_⟩ <;> simp [processLocation, hw, hn, handleRunError]
      | ok n =>
          cases hs : g.speechResult with
          | error e =>
              refine ⟨?_, ?_, ?_⟩ <;>
                simp [processLocation, hw, hn, hs, handleRunError]
          | ok b => rcases h with h | h | h <;> simp_all

/-- Witness for C10: a concrete run whose narrative call is rejected
ends in `ERROR` with the previous content bundle and selection intact. -/
theorem failure_frame_condition_witness :
    (processLocation narrativeFailGateways { id := "LYNCH" } { lat := 3, lng := 4 }
        playingState).appState = .ERROR
    ∧ (processLocation narrativeFailGateways { id := "LYNCH" } { lat := 3, lng := 4 }
        playingState).content = playingState.content
    ∧ (processLocation narrativeFailGateways { id := "LYNCH" } { lat := 3, lng := 4 }
        playingState).currentLocation = playingState.currentLocation :=
  failure_frame_condition _ _ _ _ (Or.inr (Or.inl rfl))

end LynchianWeather
